import Mathlib

/-!
Verification of `src/base/compiler.hh` (gem5-tdt4260).

The header is a table of conditional textual substitutions resolved by the
C preprocessor.  We embed it at two levels:

* a textual level: a `Config` records the feature-detection predicates the
  header inspects (`__has_cpp_attribute(...)`, `__GNUC__`, `__clang__`);
  each macro becomes a function `Config → Option String` giving its fully
  expanded text, with `none` standing for a `#error` directive (build
  failure).  `compileHeader` models processing the whole header in order.

* a semantic level, for the macros whose expansions have runtime meaning
  (`GEM5_LIKELY`, the deprecation wrappers, `GEM5_FOR_EACH_IN_PACK`):
  a side-effecting C expression over an arbitrary state type `σ` is a
  function `σ → σ × Int`, statements are a small AST executed by `execS`,
  and the expansions are translated node by node (comma operator,
  lambda-expression evaluation, brace-enclosed initializer lists,
  `do ... while (0)`).
-/

namespace Gem5Compiler

/-- A toolchain configuration as observed by the header's preprocessor
conditionals: the three `__has_cpp_attribute` tests (lines 55, 64, 73),
whether/which `__GNUC__` is defined (lines 75, 88, 124), and whether
`__clang__` is defined (lines 124, 158). -/
structure Config where
  has_fallthrough : Bool
  has_nodiscard : Bool
  has_maybe_unused : Bool
  gnuc : Option Nat
  clang : Bool
deriving DecidableEq, Repr

/-- The diagnostic of both `#error` directives (lines 80 and 151). -/
def errMsg : String := "Don't know what to do for your compiler."

/-- Lines 55–60: `[[fallthrough]]` when available, otherwise empty. -/
def GEM5_FALLTHROUGH (c : Config) : Option String :=
  if c.has_fallthrough then some "[[fallthrough]]" else some ""

/-- Lines 64–69: `[[nodiscard]]` when available, otherwise empty. -/
def GEM5_NO_DISCARD (c : Config) : Option String :=
  if c.has_nodiscard then some "[[nodiscard]]" else some ""

/-- Lines 73–81: `[[maybe_unused]]`, else `[[gnu::unused]]` under
`__GNUC__`, else `#error` (line 80). -/
def GEM5_VAR_USED (c : Config) : Option String :=
  if c.has_maybe_unused then some "[[maybe_unused]]"
  else if c.gnuc.isSome then some "[[gnu::unused]]"
  else none

/-- Line 92, guarded by `#if defined(__GNUC__)` (line 88); the `#else`
branch of that guard is `#error` (line 151), modelled as `none`. -/
def GEM5_PACKED (c : Config) : Option String :=
  if c.gnuc.isSome then some "[[gnu::packed]]" else none

/-- Line 95, under the `__GNUC__` guard. -/
def GEM5_NO_INLINE (c : Config) : Option String :=
  if c.gnuc.isSome then some "[[gnu::noinline]]" else none

/-- Line 98, under the `__GNUC__` guard.  The source text has a single
colon after `gnu` — transcribed verbatim. -/
def GEM5_PUBLIC (c : Config) : Option String :=
  if c.gnuc.isSome then some "[[gnu:visibility(\"default\")]]" else none

/-- Line 99, under the `__GNUC__` guard. -/
def GEM5_LOCAL (c : Config) : Option String :=
  if c.gnuc.isSome then some "[[gnu::visibility(\"hidden\")]]" else none

/-- Line 100, under the `__GNUC__` guard. -/
def GEM5_WEAK (c : Config) : Option String :=
  if c.gnuc.isSome then some "[[gnu::weak]]" else none

/-- Line 103, under the `__GNUC__` guard; `alignment` is substituted
textually. -/
def GEM5_ALIGNED (c : Config) (alignment : String) : Option String :=
  if c.gnuc.isSome then some ("[[gnu::aligned(" ++ alignment ++ ")]]") else none

/-- Line 106, under the `__GNUC__` guard. -/
def GEM5_UNREACHABLE (c : Config) : Option String :=
  if c.gnuc.isSome then some "__builtin_unreachable()" else none

/-- Line 113, under the `__GNUC__` guard. -/
def GEM5_LIKELY (c : Config) (cond : String) : Option String :=
  if c.gnuc.isSome then some ("__builtin_expect(!!(" ++ cond ++ "), 1)") else none

/-- Line 114, under the `__GNUC__` guard. -/
def GEM5_UNLIKELY (c : Config) (cond : String) : Option String :=
  if c.gnuc.isSome then some ("__builtin_expect(!!(" ++ cond ++ "), 0)") else none

/-- Line 118, under the `__GNUC__` guard. -/
def GEM5_DEPRECATED (c : Config) (message : String) : Option String :=
  if c.gnuc.isSome then some ("[[gnu::deprecated(" ++ message ++ ")]]") else none

/-- Lines 124–128, under the `__GNUC__` guard: forwards to
`GEM5_DEPRECATED` when `__clang__` is defined or `__GNUC__ >= 6`,
otherwise expands to nothing. -/
def GEM5_DEPRECATED_ENUM_VAL (c : Config) (message : String) : Option String :=
  match c.gnuc with
  | none => none
  | some v =>
    if c.clang || decide (6 ≤ v) then GEM5_DEPRECATED c message else some ""

/-- Lines 147–148, under the `__GNUC__` guard: the one-step body with the
`GEM5_VAR_USED` token rescanned to its own expansion. -/
def GEM5_FOR_EACH_IN_PACK (c : Config) (args : String) : Option String :=
  if c.gnuc.isSome then
    (GEM5_VAR_USED c).map (fun vu =>
      "do \x7b " ++ vu ++ " int i[] = \x7b 0, ((void)(" ++ args
        ++ "), 0)... \x7d; \x7d while (0)")
  else none

/-- Lines 158–162: forwards to `GEM5_VAR_USED` only under `__clang__`,
otherwise expands to nothing. -/
def GEM5_CLASS_VAR_USED (c : Config) : Option String :=
  if c.clang then GEM5_VAR_USED c else some ""

/-- Processing the header top to bottom: the first possible failure is the
`#error` at line 80 (inside `GEM5_VAR_USED`'s selection), the second is the
`#error` at line 151 when `__GNUC__` is undefined.  `.ok` means the header
preprocesses without a diagnostic. -/
def compileHeader (c : Config) : Except String Unit :=
  match GEM5_VAR_USED c with
  | none => .error errMsg
  | some _ => if c.gnuc.isSome then .ok () else .error errMsg

/- Lines 165–178: the legacy `M5_`-prefixed aliases, each defined as the
corresponding modern name (the preprocessor rescans the alias body, so the
final expansion is the modern macro's expansion of the same arguments). -/

/-- Line 165. -/
def M5_VAR_USED (c : Config) : Option String := GEM5_VAR_USED c

/-- Line 166. -/
def M5_NODISCARD (c : Config) : Option String := GEM5_NO_DISCARD c

/-- Line 167. -/
def M5_FALLTHROUGH (c : Config) : Option String := GEM5_FALLTHROUGH c

/-- Line 168. -/
def M5_ATTR_PACKED (c : Config) : Option String := GEM5_PACKED c

/-- Line 169. -/
def M5_NO_INLINE (c : Config) : Option String := GEM5_NO_INLINE c

/-- Line 170. -/
def M5_PUBLIC (c : Config) : Option String := GEM5_PUBLIC c

/-- Line 171. -/
def M5_LOCAL (c : Config) : Option String := GEM5_LOCAL c

/-- Line 172. -/
def M5_WEAK (c : Config) : Option String := GEM5_WEAK c

/-- Line 173. -/
def M5_ALIGNED (c : Config) (x : String) : Option String := GEM5_ALIGNED c x

/-- Line 174. -/
def M5_UNREACHABLE (c : Config) : Option String := GEM5_UNREACHABLE c

/-- Line 175. -/
def M5_LIKELY (c : Config) (x : String) : Option String := GEM5_LIKELY c x

/-- Line 176. -/
def M5_UNLIKELY (c : Config) (x : String) : Option String := GEM5_UNLIKELY c x

/-- Line 177. -/
def M5_FOR_EACH_IN_PACK (c : Config) (args : String) : Option String :=
  GEM5_FOR_EACH_IN_PACK c args

/-- Line 178. -/
def M5_CLASS_VAR_USED (c : Config) : Option String := GEM5_CLASS_VAR_USED c

/-- The modern annotation names the header defines (lines 56–148, 159). -/
def modernAnnotations : List String :=
  ["GEM5_FALLTHROUGH", "GEM5_NO_DISCARD", "GEM5_VAR_USED", "GEM5_PACKED",
   "GEM5_NO_INLINE", "GEM5_PUBLIC", "GEM5_LOCAL", "GEM5_WEAK",
   "GEM5_ALIGNED", "GEM5_UNREACHABLE", "GEM5_LIKELY", "GEM5_UNLIKELY",
   "GEM5_DEPRECATED", "GEM5_DEPRECATED_ENUM_VAL", "GEM5_DEPRECATED_MACRO",
   "GEM5_DEPRECATED_MACRO_STMT", "GEM5_FOR_EACH_IN_PACK",
   "GEM5_CLASS_VAR_USED"]

/-- The legacy alias table of lines 165–178, as (legacy, modern) pairs. -/
def m5Aliases : List (String × String) :=
  [("M5_VAR_USED", "GEM5_VAR_USED"),
   ("M5_NODISCARD", "GEM5_NO_DISCARD"),
   ("M5_FALLTHROUGH", "GEM5_FALLTHROUGH"),
   ("M5_ATTR_PACKED", "GEM5_PACKED"),
   ("M5_NO_INLINE", "GEM5_NO_INLINE"),
   ("M5_PUBLIC", "GEM5_PUBLIC"),
   ("M5_LOCAL", "GEM5_LOCAL"),
   ("M5_WEAK", "GEM5_WEAK"),
   ("M5_ALIGNED", "GEM5_ALIGNED"),
   ("M5_UNREACHABLE", "GEM5_UNREACHABLE"),
   ("M5_LIKELY", "GEM5_LIKELY"),
   ("M5_UNLIKELY", "GEM5_UNLIKELY"),
   ("M5_FOR_EACH_IN_PACK", "GEM5_FOR_EACH_IN_PACK"),
   ("M5_CLASS_VAR_USED", "GEM5_CLASS_VAR_USED")]

/-- A string is a syntactically well-formed scoped `gnu` vendor attribute
when it starts with the scoped introducer `[[gnu::` and ends with `]]`. -/
def isScopedGnuAttr (s : String) : Bool :=
  "[[gnu::".data.isPrefixOf s.data && "]]".data.isSuffixOf s.data

/-! ## Runtime semantics

A side-effecting C expression of value type `α` over a state type `σ` is a
function `σ → σ × α`; evaluating it once transforms the state once. -/

variable {σ : Type}

/-- C truthiness of an `int`: nonzero is true. -/
def truthy (v : Int) : Bool := v != 0

/-- The C `!!` idiom at line 113: `!x` is `1` when `x == 0` and `0`
otherwise, applied twice, so `!!x` normalises to `0` or `1`. -/
def bangbang (v : Int) : Int := if v = 0 then 0 else 1

/-- `__builtin_expect(x, e)` returns its first argument unchanged; the
second only feeds the optimizer. -/
def builtin_expect (x : Int) (_expected : Int) : Int := x

/-- Line 113: `GEM5_LIKELY(cond)` is `__builtin_expect(!!(cond), 1)`;
`cond` is the one subexpression evaluated. -/
def GEM5_LIKELY_sem (cond : σ → σ × Int) : σ → σ × Int :=
  fun s =>
    let r := cond s
    (r.1, builtin_expect (bangbang r.2) 1)

/-- Line 114: `GEM5_UNLIKELY(cond)` is `__builtin_expect(!!(cond), 0)`. -/
def GEM5_UNLIKELY_sem (cond : σ → σ × Int) : σ → σ × Int :=
  fun s =>
    let r := cond s
    (r.1, builtin_expect (bangbang r.2) 0)

/-- The C comma operator: evaluate the left operand, discard its value,
then evaluate and return the right operand. -/
def commaOp {α β : Type} (a : σ → σ × α) (b : σ → σ × β) : σ → σ × β :=
  fun s => b (a s).1

/-- Evaluating a lambda expression creates a closure; the body is not run.
The closure value is the body's semantics, returned unapplied. -/
def lambdaExprEval {α : Type} (body : σ → σ × α) : σ → σ × (σ → σ × α) :=
  fun s => (s, body)

/-- The body of the diagnostic lambda at line 135:
`GEM5_DEPRECATED(message) int name{}; return name;` — value-initialises a
local `int` to `0` and returns it, with no effect on outside state. -/
def deprecatedLambdaBody : σ → σ × Int := fun s => (s, 0)

/-- Line 134–135: `GEM5_DEPRECATED_MACRO(name, definition, message)`
expands to `([](){...}, (definition))` — a comma expression whose left
operand evaluates the (never-invoked) lambda to a closure and whose right
operand is the original definition. -/
def GEM5_DEPRECATED_MACRO_sem {α : Type} (definition : σ → σ × α) : σ → σ × α :=
  commaOp (lambdaExprEval deprecatedLambdaBody) definition

/-- A fragment of C statement syntax: primitive effects, sequencing,
compound blocks, `if`/`else`, and `do body while (n)` with a literal
integer controlling expression. -/
inductive Stmt (σ : Type) where
  | run : (σ → σ) → Stmt σ
  | seq : Stmt σ → Stmt σ → Stmt σ
  | block : Stmt σ → Stmt σ
  | ifElse : (σ → Bool) → Stmt σ → Stmt σ → Stmt σ
  | doWhileLit : Stmt σ → Int → Stmt σ

/-- Execution.  `do body while (n)` with literal `n` runs the body once and
stops when `n = 0`; a nonzero literal loops forever, modelled as `none`
(nontermination). -/
def execS : Stmt σ → σ → Option σ
  | .run f, s => some (f s)
  | .seq a b, s => (execS a s).bind (execS b)
  | .block a, s => execS a s
  | .ifElse c t e, s => if c s then execS t s else execS e s
  | .doWhileLit b n, s => (execS b s).bind (fun s1 => if n = 0 then some s1 else none)

/-- The empty expression `({})` passed as `definition` at line 139. -/
def emptyExpr : σ → σ × Unit := fun s => (s, ())

/-- Lines 138–139: `GEM5_DEPRECATED_MACRO_STMT(name, definition, message)`
expands to `do {{definition;} GEM5_DEPRECATED_MACRO(name, {}, message);}
while (0)`: a single `do ... while (0)` statement whose body is the block
around `definition` followed by the deprecation-diagnostic expression
statement. -/
def GEM5_DEPRECATED_MACRO_STMT_sem (definition : Stmt σ) : Stmt σ :=
  .doWhileLit
    (.seq (.block definition)
      (.run (fun s => (GEM5_DEPRECATED_MACRO_sem emptyExpr s).1)))
    0

/-- A cast to `void`: evaluate, discard the value. -/
def voidCast {α : Type} (e : σ → σ × α) : σ → σ × Unit :=
  fun s => ((e s).1, ())

/-- An integer literal expression. -/
def intLit (n : Int) : σ → σ × Int := fun s => (s, n)

/-- One element of the pack expansion at line 148: `((void)(e), 0)`. -/
def packElem (e : σ → σ × Int) : σ → σ × Int :=
  commaOp (voidCast e) (intLit 0)

/-- A brace-enclosed initializer list evaluates its elements strictly left
to right, collecting the values. -/
def evalInitList : List (σ → σ × Int) → σ → σ × List Int
  | [], s => (s, [])
  | e :: es, s =>
    let r := e s
    let rest := evalInitList es r.1
    (rest.1, r.2 :: rest.2)

/-- The initializer list of line 148: a leading `0`, then `((void)(e), 0)`
for each expression of the expanded pack. -/
def initElems (args : List (σ → σ × Int)) : List (σ → σ × Int) :=
  intLit 0 :: args.map packElem

/-- Lines 147–148: `GEM5_FOR_EACH_IN_PACK(...)` expands to
`do { GEM5_VAR_USED int i[] = { 0, ((void)(__VA_ARGS__), 0)... }; }
while (0)`: the declaration's effect is evaluating the initializer list;
the array itself is discarded. -/
def GEM5_FOR_EACH_IN_PACK_sem (args : List (σ → σ × Int)) : Stmt σ :=
  .doWhileLit (.run (fun s => (evalInitList (initElems args) s).1)) 0

/-- A gcc-like configuration: every tested attribute available,
`__GNUC__` defined, `__clang__` not. -/
def gccConfig : Config := ⟨true, true, true, some 9, false⟩

/-- A non-gcc, non-clang configuration without `[[maybe_unused]]`. -/
def noGnuConfig : Config := ⟨true, true, false, none, false⟩

/-!  ## Claims -/

/-- Claim C1: `GEM5_LIKELY(c)` and `GEM5_UNLIKELY(c)` evaluate the
condition exactly once (the resulting state is that of one evaluation of
`cond`, for every side-effecting `cond`) and return a value with exactly
the condition's boolean truth value. -/
theorem likely_unlikely_transparent (cond : σ → σ × Int) (s : σ) :
    (GEM5_LIKELY_sem cond s).1 = (cond s).1 ∧
    (GEM5_UNLIKELY_sem cond s).1 = (cond s).1 ∧
    truthy (GEM5_LIKELY_sem cond s).2 = truthy (cond s).2 ∧
    truthy (GEM5_UNLIKELY_sem cond s).2 = truthy (cond s).2 := by
  refine ⟨rfl, rfl, ?_, ?_⟩
  · by_cases h : (cond s).2 = 0 <;>
      simp [GEM5_LIKELY_sem, truthy, builtin_expect, bangbang, h]
  · by_cases h : (cond s).2 = 0 <;>
      simp [GEM5_UNLIKELY_sem, truthy, builtin_expect, bangbang, h]

/-- Claim C2 counterexample: `GEM5_DEPRECATED` is a modern annotation of
the header with no legacy `M5_`-prefixed alias, so the alias table does
not cover every modern annotation. -/
theorem m5_alias_missing_for_deprecated :
    "GEM5_DEPRECATED" ∈ modernAnnotations ∧
    "GEM5_DEPRECATED" ∉ m5Aliases.map Prod.snd := by
  decide

/-- Claim C2 (amended): every legacy `M5_` alias expands, under every
configuration and for every argument text, to exactly the text of its
modern counterpart, and the alias map is one-to-one (no two aliases share
a modern target); but the four deprecation macros have no alias. -/
theorem m5_aliases_expand_identically (c : Config) (x : String) :
    (m5Aliases.map Prod.snd).Nodup ∧
    M5_VAR_USED c = GEM5_VAR_USED c ∧
    M5_NODISCARD c = GEM5_NO_DISCARD c ∧
    M5_FALLTHROUGH c = GEM5_FALLTHROUGH c ∧
    M5_ATTR_PACKED c = GEM5_PACKED c ∧
    M5_NO_INLINE c = GEM5_NO_INLINE c ∧
    M5_PUBLIC c = GEM5_PUBLIC c ∧
    M5_LOCAL c = GEM5_LOCAL c ∧
    M5_WEAK c = GEM5_WEAK c ∧
    M5_ALIGNED c x = GEM5_ALIGNED c x ∧
    M5_UNREACHABLE c = GEM5_UNREACHABLE c ∧
    M5_LIKELY c x = GEM5_LIKELY c x ∧
    M5_UNLIKELY c x = GEM5_UNLIKELY c x ∧
    M5_FOR_EACH_IN_PACK c x = GEM5_FOR_EACH_IN_PACK c x ∧
    M5_CLASS_VAR_USED c = GEM5_CLASS_VAR_USED c :=
  ⟨by decide, rfl, rfl, rfl, rfl, rfl, rfl, rfl, rfl, rfl, rfl, rfl, rfl,
   rfl, rfl⟩

/-- Claim C3 (code bug): on a gcc/clang configuration `GEM5_PUBLIC`
expands to `[[gnu:visibility("default")]]` — a single colon after `gnu`,
not the well-formed scoped attribute form `[[gnu::...]]` that its two
sibling visibility markers `GEM5_LOCAL` and `GEM5_WEAK` use. -/
theorem gem5_public_attr_malformed :
    GEM5_PUBLIC gccConfig = some "[[gnu:visibility(\"default\")]]" ∧
    isScopedGnuAttr "[[gnu:visibility(\"default\")]]" = false ∧
    (GEM5_LOCAL gccConfig).map isScopedGnuAttr = some true ∧
    (GEM5_WEAK gccConfig).map isScopedGnuAttr = some true := by
  refine ⟨rfl, by decide, by decide, by decide⟩

/-- Claim C4 counterexample: on a toolchain that is neither gcc nor clang
and lacks `[[maybe_unused]]`, the advisory maybe-unused marker does not
degrade to a no-op: it hits the `#error` at line 80 and the header fails
to build. -/
theorem var_used_errors_on_non_gnu :
    GEM5_VAR_USED noGnuConfig = none ∧
    compileHeader noGnuConfig = .error errMsg :=
  ⟨rfl, rfl⟩

/-- Claim C4 (amended): the fallthrough and no-discard markers never fail
and degrade to an empty expansion when unsupported, on every
configuration; the maybe-unused marker degrades to `[[gnu::unused]]` only
when `__GNUC__` is defined and otherwise causes a build failure. -/
theorem advisory_markers_degrade (c : Config) :
    (GEM5_FALLTHROUGH c).isSome = true ∧
    (GEM5_NO_DISCARD c).isSome = true ∧
    (c.has_fallthrough = false → GEM5_FALLTHROUGH c = some "") ∧
    (c.has_nodiscard = false → GEM5_NO_DISCARD c = some "") ∧
    (c.has_maybe_unused = false → c.gnuc.isSome = true →
      GEM5_VAR_USED c = some "[[gnu::unused]]") ∧
    (c.has_maybe_unused = false → c.gnuc = none →
      GEM5_VAR_USED c = none) := by
  refine ⟨?_, ?_, ?_, ?_, ?_, ?_⟩
  · cases h : c.has_fallthrough <;> simp [GEM5_FALLTHROUGH, h]
  · cases h : c.has_nodiscard <;> simp [GEM5_NO_DISCARD, h]
  · intro h; simp [GEM5_FALLTHROUGH, h]
  · intro h; simp [GEM5_NO_DISCARD, h]
  · intro h1 h2; simp [GEM5_VAR_USED, h1, h2]
  · intro h1 h2; simp [GEM5_VAR_USED, h1, h2]

/-- Claim C4 witness: the amended statement applied to concrete
configurations. -/
theorem advisory_markers_degrade_witness :
    GEM5_FALLTHROUGH ⟨false, false, false, some 9, false⟩ = some "" ∧
    GEM5_VAR_USED ⟨false, false, false, some 9, false⟩
      = some "[[gnu::unused]]" := by
  have h := advisory_markers_degrade ⟨false, false, false, some 9, false⟩
  exact ⟨h.2.2.1 rfl, h.2.2.2.2.1 rfl rfl⟩

/-- Claim C5: on every configuration on which `__GNUC__` is undefined
(neither gcc nor clang, since both define it), processing the header fails
with the diagnostic `Don't know what to do for your compiler.`. -/
theorem non_gnu_toolchain_fails (c : Config) (h : c.gnuc = none) :
    compileHeader c = .error errMsg ∧
    errMsg = "Don't know what to do for your compiler." := by
  constructor
  · cases hm : c.has_maybe_unused <;>
      simp [compileHeader, GEM5_VAR_USED, hm, h]
  · rfl

/-- Claim C5 witness. -/
theorem non_gnu_toolchain_fails_witness :
    compileHeader ⟨true, true, true, none, false⟩ = .error errMsg :=
  (non_gnu_toolchain_fails ⟨true, true, true, none, false⟩ rfl).1

/-- Claim C6: the deprecated-expression wrapper is a comma expression
whose left operand merely constructs the diagnostic lambda's closure
(leaving the state unchanged, the body never invoked) and whose value and
side effects are exactly one evaluation of `definition`. -/
theorem deprecated_expr_transparent {α : Type} (definition : σ → σ × α) (s : σ) :
    GEM5_DEPRECATED_MACRO_sem definition s = definition s ∧
    (lambdaExprEval (deprecatedLambdaBody (σ := σ)) s).1 = s :=
  ⟨rfl, rfl⟩

/-- Claim C7: the deprecated-statement wrapper executes the wrapped
statement exactly once, is usable in dangling-else position with the else
attaching to the enclosing `if`, and its expansion is a single
`do ... while (0)` statement. -/
theorem deprecated_stmt_single_execution (definition : Stmt σ) (s : σ) :
    execS (GEM5_DEPRECATED_MACRO_STMT_sem definition) s = execS definition s ∧
    (∀ (c : σ → Bool) (t : Stmt σ),
      execS (.ifElse c (GEM5_DEPRECATED_MACRO_STMT_sem definition) t) s
        = if c s then execS definition s else execS t s) ∧
    (∃ body, GEM5_DEPRECATED_MACRO_STMT_sem definition = .doWhileLit body 0) := by
  have h1 : execS (GEM5_DEPRECATED_MACRO_STMT_sem definition) s
      = execS definition s := by
    cases h : execS definition s <;>
      simp [GEM5_DEPRECATED_MACRO_STMT_sem, execS, h,
        GEM5_DEPRECATED_MACRO_sem, commaOp, lambdaExprEval, emptyExpr]
  refine ⟨h1, ?_, ⟨_, rfl⟩⟩
  intro c t
  have h2 : execS (Stmt.ifElse c (GEM5_DEPRECATED_MACRO_STMT_sem definition) t) s
      = if c s then execS (GEM5_DEPRECATED_MACRO_STMT_sem definition) s
        else execS t s := rfl
  rw [h2, h1]

/-- Elements wrapped as `((void)(e), 0)` contribute exactly `e`'s state
effect, in list order. -/
theorem evalInitList_map_packElem (args : List (σ → σ × Int)) (s : σ) :
    (evalInitList (args.map packElem) s).1
      = args.foldl (fun t e => (e t).1) s := by
  induction args generalizing s with
  | nil => rfl
  | cons e es ih =>
    simp [evalInitList, packElem, commaOp, voidCast, intLit, List.foldl, ih]

/-- Claim C8: applied to expressions `e1..ek`, the pack-evaluation
statement terminates in the state obtained by running the expressions'
effects exactly once each, strictly left to right, all values discarded. -/
theorem for_each_in_pack_order (args : List (σ → σ × Int)) (s : σ) :
    execS (GEM5_FOR_EACH_IN_PACK_sem args) s
      = some (args.foldl (fun t e => (e t).1) s) := by
  simp [GEM5_FOR_EACH_IN_PACK_sem, execS, initElems, evalInitList, intLit,
    evalInitList_map_packElem]

/-- Claim C10: with an empty pack the construct is still well-formed — the
initializer list degenerates to the single leading `0`, a positive array
size — and executing it is a no-op. -/
theorem for_each_in_pack_empty (s : σ) :
    execS (GEM5_FOR_EACH_IN_PACK_sem ([] : List (σ → σ × Int))) s = some s ∧
    (initElems ([] : List (σ → σ × Int))).length = 1 := by
  constructor
  · simp [GEM5_FOR_EACH_IN_PACK_sem, execS, initElems, evalInitList, intLit]
  · rfl

/-- Claim C9: under the `__GNUC__` guard, `GEM5_DEPRECATED_ENUM_VAL`
expands to the plain deprecated marker with the same message when
`__clang__` is defined or `__GNUC__ >= 6`, and to nothing on earlier
non-clang GCC. -/
theorem deprecated_enum_val_gating (c : Config) (v : Nat) (h : c.gnuc = some v)
    (msg : String) :
    (c.clang = true ∨ 6 ≤ v →
      GEM5_DEPRECATED_ENUM_VAL c msg = GEM5_DEPRECATED c msg ∧
      GEM5_DEPRECATED c msg = some ("[[gnu::deprecated(" ++ msg ++ ")]]")) ∧
    (c.clang = false → v < 6 → GEM5_DEPRECATED_ENUM_VAL c msg = some "") := by
  constructor
  · intro hcv
    refine ⟨?_, by simp [GEM5_DEPRECATED, h]⟩
    unfold GEM5_DEPRECATED_ENUM_VAL
    rw [h]
    rcases hcv with hc | hv
    · simp [hc]
    · simp [hv]
  · intro hc hv
    unfold GEM5_DEPRECATED_ENUM_VAL
    rw [h]
    simp [hc, Nat.not_le.mpr hv]

/-- Claim C9 witness: the gate at the boundary versions 6 and 5. -/
theorem deprecated_enum_val_gating_witness :
    GEM5_DEPRECATED_ENUM_VAL ⟨true, true, true, some 6, false⟩ "m"
      = GEM5_DEPRECATED ⟨true, true, true, some 6, false⟩ "m" ∧
    GEM5_DEPRECATED_ENUM_VAL ⟨true, true, true, some 5, false⟩ "m"
      = some "" := by
  have h1 := deprecated_enum_val_gating ⟨true, true, true, some 6, false⟩ 6 rfl "m"
  have h2 := deprecated_enum_val_gating ⟨true, true, true, some 5, false⟩ 5 rfl "m"
  exact ⟨(h1.1 (Or.inr (le_refl 6))).1, h2.2 rfl (by decide)⟩

end Gem5Compiler
